import Mathlib

/-!
Verification of the playback engine of the bad-browser terminal application.

The engine (src/video.rs, `VideoEngine`) supervises an external decoder
process and an external audio process, maintains a shared frame buffer, and
implements start / stop / pause / seek on top of processes that do not
support them natively.  The consumer loop (src/app.rs, `App::handle_events`)
fences stale completion events by session id.

Modelling conventions:
- `f64` values (seek times, durations, wall-clock instants) are modelled as
  rationals; every constant appearing in the verified properties is exactly
  representable, and the arithmetic involved (addition, subtraction of 1,
  comparisons) is exact in both models.
- Wall-clock reads (`Instant::now`, `Instant::elapsed`) are explicit
  parameters.
- OS effects (spawning and killing processes, sending signals, resizing the
  shared buffer, spawning the decode thread) are recorded in an `Action`
  trace so that ordering and occurrence claims can be stated; process
  handles are pids (`Option Nat`), and the outcome of a spawn attempt is an
  input (`SpawnEnv`), mirroring `Command::spawn()` returning `Result`.
- The decode loop's atomics are read at several distinct program points per
  iteration; each read is a separate input field of `IterInput`, so one
  `decode_iter` call models one iteration of the racy loop body.
-/

namespace BadBrowser

/-- Events on the bounded channel (src/types.rs, `BgEvent`).  The page
variants carry payloads irrelevant to playback; they are elided.
`videoEnded` is the `VideoEnded(usize)` variant (the spec's
`PlaybackEnded(session_id)`). -/
inductive BgEvent where
  | pageLoaded
  | prefetchReady
  | videoEnded (id : Nat)
  | error
  deriving DecidableEq, Repr

/-- Observable side effects of engine operations, in program order.
`cancelSession` is `stopper.store(true)` on the taken stopper;
`killAudio` / `killFfmpeg` are kill-wait (plus forced kill) on a process;
`sigStop` / `sigCont` are the pause and resume signals sent to the audio
pid; `spawnAudioProc` and `spawnFfmpegProc` are spawn attempts at a given
seek offset; `resizeBuffer n` is the reallocation of the frame buffer to
`n` zeroed bytes; `spawnDecodeThread sid` starts the decode-loop thread
bound to session `sid`. -/
inductive Action where
  | cancelSession
  | killAudio (pid : Nat)
  | killFfmpeg (pid : Nat)
  | sigStop (pid : Nat)
  | sigCont (pid : Nat)
  | spawnAudioProc (seek : ℚ)
  | spawnFfmpegProc (seek : ℚ)
  | resizeBuffer (n : Nat)
  | spawnDecodeThread (sid : Nat)
  deriving DecidableEq, Repr

/-- The engine state (src/video.rs, `VideoEngine`).  `buffer` is the byte
content of the shared frame buffer; `currentStopper` is `Some b` when the
engine holds a stopper whose atomic currently reads `b`; the process
fields hold pids. -/
structure EngineState where
  buffer : List Nat
  sourceWidth : Nat
  sourceHeight : Nat
  currentStopper : Option Bool
  pauseSignal : Bool
  audioProcess : Option Nat
  ffmpegProcess : Option Nat
  seekTime : ℚ
  duration : ℚ
  startInstant : ℚ
  sessionId : Nat
  isPaused : Bool
  deriving DecidableEq, Repr

/-- Environment of one engine operation: the outcomes of the spawn attempts
it may make (`Command::spawn().ok()` yields a pid or nothing) and the
current wall-clock time used for `Instant::now()`. -/
structure SpawnEnv where
  ffmpegChild : Option Nat
  audioChild : Option Nat
  now : ℚ
  deriving DecidableEq, Repr

/-- `VideoEngine::new` (src/video.rs lines 32-50): fresh state with the
probed duration, an empty buffer, default geometry 100 x 50, no session. -/
def VideoEngine.new (duration : ℚ) : EngineState :=
  { buffer := []
    sourceWidth := 100
    sourceHeight := 50
    currentStopper := none
    pauseSignal := false
    audioProcess := none
    ffmpegProcess := none
    seekTime := 0
    duration := duration
    startInstant := 0
    sessionId := 0
    isPaused := false }

/-- `self.current_stopper.take()` followed by `stopper.store(true)`
(src/video.rs lines 217-219). -/
def cancel_stopper (s : EngineState) : EngineState × List Action :=
  match s.currentStopper with
  | some _ => ({ s with currentStopper := none }, [Action.cancelSession])
  | none => (s, [])

/-- `self.audio_process.take()` followed by kill, wait and forced kill
(src/video.rs lines 221-227). -/
def kill_audio (s : EngineState) : EngineState × List Action :=
  match s.audioProcess with
  | some pid => ({ s with audioProcess := none }, [Action.killAudio pid])
  | none => (s, [])

/-- `self.ffmpeg_process.take()` followed by kill, wait and forced kill
(src/video.rs lines 229-235). -/
def kill_ffmpeg (s : EngineState) : EngineState × List Action :=
  match s.ffmpegProcess with
  | some pid => ({ s with ffmpegProcess := none }, [Action.killFfmpeg pid])
  | none => (s, [])

/-- `VideoEngine::stop_processes` (src/video.rs lines 214-236): cancel the
current stopper, then terminate the audio process, then the decoder. -/
def stop_processes (s : EngineState) : EngineState × List Action :=
  let r1 := cancel_stopper s
  let r2 := kill_audio r1.1
  let r3 := kill_ffmpeg r2.1
  (r3.1, r1.2 ++ r2.2 ++ r3.2)

/-- `VideoEngine::spawn_audio` (src/video.rs lines 238-275): kill any old
audio process, then attempt to spawn `ffplay` at `seekSeconds`; the handle
becomes the spawn result (`.ok()`). -/
def spawn_audio (seekSeconds : ℚ) (env : SpawnEnv) (s : EngineState) :
    EngineState × List Action :=
  let r := kill_audio s
  ({ r.1 with audioProcess := env.audioChild },
   r.2 ++ [Action.spawnAudioProc seekSeconds])

/-- `VideoEngine::start` (src/video.rs lines 52-148): stop old processes,
bump the session id, install a fresh un-set stopper, clear pause state,
spawn audio, record the seek offset and reset the wall-clock anchor, set
the geometry, resize the buffer to `termW * termH` zeroed bytes, attempt
to spawn the decoder, and spawn the decode-loop thread only if the decoder
spawned. -/
def start (termW termH : Nat) (seekSeconds : ℚ) (env : SpawnEnv)
    (s : EngineState) : EngineState × List Action :=
  let r1 := stop_processes s
  let s2 := { r1.1 with
    sessionId := r1.1.sessionId + 1
    currentStopper := some false
    isPaused := false
    pauseSignal := false }
  let r2 := spawn_audio seekSeconds env s2
  let s3 := { r2.1 with
    seekTime := seekSeconds
    startInstant := env.now
    sourceWidth := termW
    sourceHeight := termH
    buffer := List.replicate (termW * termH) 0 }
  let preActs := r1.2 ++ r2.2 ++
    [Action.resizeBuffer (termW * termH), Action.spawnFfmpegProc seekSeconds]
  match env.ffmpegChild with
  | some pid =>
      ({ s3 with ffmpegProcess := some pid },
       preActs ++ [Action.spawnDecodeThread s2.sessionId])
  | none => (s3, preActs)

/-- `VideoEngine::stop` (src/video.rs lines 150-155): stop processes, reset
`seek_time` to 0 and pause state to false. -/
def stop (s : EngineState) : EngineState × List Action :=
  let r := stop_processes s
  ({ r.1 with seekTime := 0, isPaused := false, pauseSignal := false }, r.2)

/-- The clamped target offset computed by `VideoEngine::seek`
(src/video.rs lines 195-209): current position plus delta, floored at 0,
then clamped to `duration - 1` when the duration is positive and the
target strictly exceeds it.  `elapsedWall` is the wall-clock elapsed time
since the anchor (ignored when paused). -/
def seek_target (delta elapsedWall : ℚ) (s : EngineState) : ℚ :=
  let elapsed := if s.isPaused then 0 else elapsedWall
  let currentRealTime := s.seekTime + elapsed
  let newTime0 := currentRealTime + delta
  let newTime1 := if newTime0 < 0 then 0 else newTime0
  if 0 < s.duration ∧ s.duration < newTime1 then s.duration - 1 else newTime1

/-- `VideoEngine::seek` (src/video.rs lines 195-212): a full `start` at the
clamped target offset. -/
def seek (delta : ℚ) (termW termH : Nat) (elapsedWall : ℚ) (env : SpawnEnv)
    (s : EngineState) : EngineState × List Action :=
  start termW termH (seek_target delta elapsedWall s) env s

/-- `VideoEngine::toggle_pause` (src/video.rs lines 157-193).  `sigOk` is
the outcome of the one signal command the call issues (`kill -STOP` when
pausing, `kill -CONT` when resuming); `env` supplies the wall clock and
the respawn outcome for the kill-and-respawn fallback. -/
def toggle_pause (elapsedWall : ℚ) (env : SpawnEnv) (sigOk : Bool)
    (s : EngineState) : EngineState × List Action :=
  let p := !s.isPaused
  let s1 := { s with isPaused := p, pauseSignal := p }
  if p then
    let s2 := { s1 with seekTime := s1.seekTime + elapsedWall }
    match s2.audioProcess with
    | some pid =>
        if sigOk then (s2, [Action.sigStop pid])
        else ({ s2 with audioProcess := none },
              [Action.sigStop pid, Action.killAudio pid])
    | none => (s2, [])
  else
    let s2 := { s1 with startInstant := env.now }
    match s2.audioProcess with
    | some pid =>
        if sigOk then (s2, [Action.sigCont pid])
        else
          let r := spawn_audio s2.seekTime env s2
          (r.1, Action.sigCont pid :: r.2)
    | none =>
        let r := spawn_audio s2.seekTime env s2
        (r.1, r.2)

/-- Result of one blocking `read_exact` on the decoder pipe. -/
inductive ReadResult where
  | ok
  | err
  deriving DecidableEq, Repr

/-- Whether the decode loop keeps running after an iteration or has
terminated (by `break` or by the `while` condition). -/
inductive IterOutcome where
  | running
  | ended
  deriving DecidableEq, Repr

/-- Inputs of one iteration of the decode loop (src/video.rs lines
117-144): the values the two atomics read at each program point, the read
outcome, and the bytes `read_exact` left in `frame` on success. -/
structure IterInput where
  stopAtTop : Bool
  pauseAtTop : Bool
  read : ReadResult
  frame : List Nat
  stopAfterRead : Bool
  pauseAfterRead : Bool
  deriving DecidableEq, Repr

/-- One iteration of the decode loop spawned by `start` for session
`sessionId` with frame size `size` (src/video.rs lines 112-146): exit when
the stopper reads true at the top; sleep and retry when paused; otherwise
read a frame: on success, exit if now cancelled, and copy into the buffer
under lock only when the buffer length still equals `size`, exiting
without any event on a mismatch; on read failure, post
`VideoEnded(sessionId)` unless cancelled, then exit.  Returns the new
buffer content, the events posted, and whether the loop continues. -/
def decode_iter (size sessionId : Nat) (inp : IterInput) (buffer : List Nat) :
    List Nat × List BgEvent × IterOutcome :=
  if inp.stopAtTop then (buffer, [], IterOutcome.ended)
  else if inp.pauseAtTop then (buffer, [], IterOutcome.running)
  else
    match inp.read with
    | ReadResult.ok =>
        if inp.stopAfterRead then (buffer, [], IterOutcome.ended)
        else if !inp.pauseAfterRead then
          if buffer.length = size then (inp.frame, [], IterOutcome.running)
          else (buffer, [], IterOutcome.ended)
        else (buffer, [], IterOutcome.running)
    | ReadResult.err =>
        if !inp.stopAfterRead then
          (buffer, [BgEvent.videoEnded sessionId], IterOutcome.ended)
        else (buffer, [], IterOutcome.ended)

/-- `AppMode` (src/types.rs). -/
inductive AppMode where
  | normal
  | insert
  | video
  deriving DecidableEq, Repr

/-- `AutoScroll` (src/types.rs). -/
inductive AutoScroll where
  | off
  | linear
  | randomWalk
  | demo
  deriving DecidableEq, Repr

/-- The slice of `App` state (src/app.rs) touched by video-event handling. -/
structure AppState where
  mode : AppMode
  engine : EngineState
  demoIndex : Nat
  lastPrefetchIndex : Option Nat
  autoScroll : AutoScroll
  deriving DecidableEq, Repr

/-- `App::stop_video` (src/app.rs lines 466-472): back to normal mode, stop
the engine, reset demo and auto-scroll state. -/
def stop_video (a : AppState) : AppState × List Action :=
  let r := stop a.engine
  ({ a with
      mode := AppMode.normal
      engine := r.1
      demoIndex := 0
      lastPrefetchIndex := none
      autoScroll := AutoScroll.off }, r.2)

/-- The `BgEvent::VideoEnded(id)` arm of `App::handle_events`
(src/app.rs lines 193-198): act only when in video mode and the id equals
the active session id; otherwise the event is discarded. -/
def handle_video_ended (id : Nat) (a : AppState) : AppState × List Action :=
  if a.mode = AppMode.video ∧ id = a.engine.sessionId then stop_video a
  else (a, [])

/-- Concrete spawn environment used to instantiate universally quantified
statements: both spawns succeed, with pids 1 and 2, wall clock 0. -/
def sampleEnv : SpawnEnv :=
  { ffmpegChild := some 1, audioChild := some 2, now := 0 }

/-- Concrete engine used to instantiate universally quantified statements:
a fresh engine whose probed duration is 120 seconds. -/
def sampleEngine : EngineState := VideoEngine.new 120

/-- Concrete application state used to instantiate universally quantified
statements: video mode with active session id 2. -/
def sampleApp : AppState :=
  { mode := AppMode.video
    engine := { sampleEngine with sessionId := 2 }
    demoIndex := 3
    lastPrefetchIndex := some 1
    autoScroll := AutoScroll.demo }

theorem stop_processes_fst (s : EngineState) :
    (stop_processes s).1 =
      { s with currentStopper := none, audioProcess := none,
               ffmpegProcess := none } := by
  obtain ⟨b, w, h, cs, ps, ap, fp, st, du, si, sid, ip⟩ := s
  cases cs <;> cases ap <;> cases fp <;> rfl

theorem spawn_audio_fst (t : ℚ) (env : SpawnEnv) (s : EngineState) :
    (spawn_audio t env s).1 = { s with audioProcess := env.audioChild } := by
  obtain ⟨b, w, h, cs, ps, ap, fp, st, du, si, sid, ip⟩ := s
  cases ap <;> rfl

theorem stop_processes_acts_shape (s : EngineState) :
    ∀ a ∈ (stop_processes s).2, a = Action.cancelSession ∨
      (∃ p, a = Action.killAudio p) ∨ ∃ p, a = Action.killFfmpeg p := by
  obtain ⟨b, w, h, cs, ps, ap, fp, st, du, si, sid, ip⟩ := s
  cases cs <;> cases ap <;> cases fp <;>
    simp [stop_processes, cancel_stopper, kill_audio, kill_ffmpeg]

theorem spawn_audio_acts_shape (t : ℚ) (env : SpawnEnv) (s : EngineState) :
    ∀ a ∈ (spawn_audio t env s).2,
      (∃ p, a = Action.killAudio p) ∨ a = Action.spawnAudioProc t := by
  obtain ⟨b, w, h, cs, ps, ap, fp, st, du, si, sid, ip⟩ := s
  cases ap <;> simp [spawn_audio, kill_audio]

theorem start_fst (termW termH : Nat) (t : ℚ) (env : SpawnEnv)
    (s : EngineState) :
    (start termW termH t env s).1 =
      { s with
          buffer := List.replicate (termW * termH) 0
          sourceWidth := termW
          sourceHeight := termH
          currentStopper := some false
          pauseSignal := false
          audioProcess := env.audioChild
          ffmpegProcess := env.ffmpegChild
          seekTime := t
          startInstant := env.now
          sessionId := s.sessionId + 1
          isPaused := false } := by
  obtain ⟨fc, ac, now⟩ := env
  obtain ⟨b, w, h, cs, ps, ap, fp, st, du, si, sid, ip⟩ := s
  cases fc <;> cases cs <;> cases ap <;> cases fp <;> rfl

theorem start_acts (termW termH : Nat) (t : ℚ) (env : SpawnEnv)
    (s : EngineState) :
    (start termW termH t env s).2 =
      (stop_processes s).2 ++
      [Action.spawnAudioProc t,
       Action.resizeBuffer (termW * termH), Action.spawnFfmpegProc t] ++
      (match env.ffmpegChild with
       | some _ => [Action.spawnDecodeThread (s.sessionId + 1)]
       | none => []) := by
  obtain ⟨fc, ac, now⟩ := env
  obtain ⟨b, w, h, cs, ps, ap, fp, st, du, si, sid, ip⟩ := s
  cases fc <;> cases cs <;> cases ap <;> cases fp <;> rfl

theorem seek_fst_seekTime (delta : ℚ) (termW termH : Nat) (elapsedWall : ℚ)
    (env : SpawnEnv) (s : EngineState) :
    (seek delta termW termH elapsedWall env s).1.seekTime =
      seek_target delta elapsedWall s := by
  simp [seek, start_fst]

/-- C1 counterexample: with `delta = 0` (non-negative) the claimed interval
fails twice.  First, from a paused state with `duration = 120` and
`seek_time = 120`, the clamp is not applied (the target does not strictly
exceed the duration) and the stored position is `120`, not inside
`[0, 120)`.  Second, with `duration = 1/2` and `seek_time = 2` the clamp
yields `duration - 1 = -1/2 < 0`. -/
theorem seek_seekTime_range_cex :
    ((seek 0 80 24 0 sampleEnv
        { VideoEngine.new 120 with seekTime := 120, isPaused := true }).1.seekTime
        = 120 ∧
      ¬ (seek 0 80 24 0 sampleEnv
        { VideoEngine.new 120 with seekTime := 120, isPaused := true }).1.seekTime
        < 120) ∧
    (seek 0 80 24 0 sampleEnv
        { VideoEngine.new (1/2) with seekTime := 2, isPaused := true }).1.seekTime
        < 0 := by
  refine ⟨⟨?_, ?_⟩, ?_⟩ <;>
    norm_num [seek_fst_seekTime, seek_target, VideoEngine.new, sampleEnv]

/-- C1 (amended): for every non-negative `delta` and every engine state,
after `seek(delta, w, h)` the stored `seek_time` lies in `[0, duration]`
when `duration ≥ 1`, and in `[0, ∞)` when `duration ≤ 0`.  (The original
half-open interval `[0, duration)` fails when the target equals the
duration exactly, and durations in `(0, 1)` can clamp to a negative
position.) -/
theorem seek_seekTime_range (delta : ℚ) (termW termH : Nat)
    (elapsedWall : ℚ) (env : SpawnEnv) (s : EngineState) (hδ : 0 ≤ delta) :
    (1 ≤ s.duration →
      0 ≤ (seek delta termW termH elapsedWall env s).1.seekTime ∧
      (seek delta termW termH elapsedWall env s).1.seekTime ≤ s.duration) ∧
    (s.duration ≤ 0 →
      0 ≤ (seek delta termW termH elapsedWall env s).1.seekTime) := by
  rw [seek_fst_seekTime]
  simp only [seek_target]
  set nt0 := s.seekTime + (if s.isPaused then 0 else elapsedWall) + delta
    with hnt0
  rcases lt_or_le nt0 0 with h0 | h0
  · rw [if_pos h0]
    constructor
    · intro h1
      rw [if_neg]
      · exact ⟨le_refl 0, by linarith⟩
      · rintro ⟨h2, h3⟩; linarith
    · intro h1
      rw [if_neg]
      · rintro ⟨h2, h3⟩; linarith
  · rw [if_neg (not_lt.mpr h0)]
    constructor
    · intro h1
      by_cases hc : 0 < s.duration ∧ s.duration < nt0
      · rw [if_pos hc]
        exact ⟨by linarith, by linarith⟩
      · rw [if_neg hc]
        rcases not_and_or.mp hc with h | h
        · exact absurd (by linarith) h
        · exact ⟨h0, by linarith [not_lt.mp h]⟩
    · intro h1
      rw [if_neg]
      · exact h0
      · rintro ⟨h2, h3⟩; linarith

/-- Instantiation of `seek_seekTime_range` at `delta = 0` on a fresh
engine with duration 120. -/
theorem seek_seekTime_range_witness :
    0 ≤ (0 : ℚ) ∧
    (1 ≤ sampleEngine.duration →
      0 ≤ (seek 0 80 24 0 sampleEnv sampleEngine).1.seekTime ∧
      (seek 0 80 24 0 sampleEnv sampleEngine).1.seekTime ≤
        sampleEngine.duration) ∧
    (sampleEngine.duration ≤ 0 →
      0 ≤ (seek 0 80 24 0 sampleEnv sampleEngine).1.seekTime) :=
  ⟨le_refl 0, seek_seekTime_range 0 80 24 0 sampleEnv sampleEngine (le_refl 0)⟩

/-- C8: when the duration is 120 and the computed target position (current
real-time position plus `delta`) strictly exceeds it, the offset handed to
the internal `start` — and hence the stored `seek_time` — is exactly
`119 = 120 - 1`. -/
theorem seek_clamps_to_119 (delta elapsedWall : ℚ) (termW termH : Nat)
    (env : SpawnEnv) (s : EngineState) (hdur : s.duration = 120)
    (hover : 120 < s.seekTime + (if s.isPaused then 0 else elapsedWall) + delta) :
    seek_target delta elapsedWall s = 119 ∧
    (seek delta termW termH elapsedWall env s).1.seekTime = 119 := by
  have h0 : ¬ (s.seekTime + (if s.isPaused then 0 else elapsedWall) + delta
      < 0) := by linarith
  have ht : seek_target delta elapsedWall s = 119 := by
    simp only [seek_target]
    rw [if_neg h0, if_pos ⟨by rw [hdur]; norm_num, by rw [hdur]; exact hover⟩,
      hdur]
    norm_num
  exact ⟨ht, by rw [seek_fst_seekTime, ht]⟩

/-- Instantiation of `seek_clamps_to_119`: `start` at offset 0 with
duration 120, then `seek(200)` observed with zero wall-clock elapsed. -/
theorem seek_clamps_to_119_witness :
    sampleEngine.duration = 120 ∧
    120 < sampleEngine.seekTime +
      (if sampleEngine.isPaused then 0 else 0) + 200 ∧
    (seek 200 80 24 0 sampleEnv sampleEngine).1.seekTime = 119 :=
  ⟨by norm_num [sampleEngine, VideoEngine.new],
   by norm_num [sampleEngine, VideoEngine.new],
   (seek_clamps_to_119 200 0 80 24 sampleEnv sampleEngine
      (by norm_num [sampleEngine, VideoEngine.new])
      (by norm_num [sampleEngine, VideoEngine.new])).2⟩

/-- C9: `start(80, 24, 0.0)` followed immediately by `seek(-5.0, 80, 24)`
(at most 5 wall-clock seconds after the anchor, with a non-negative
duration) stores a seek offset clamped to exactly 0, and the session id
after the `seek` is exactly one greater than after the `start` (the
increment coming from the `seek`'s internal `start`). -/
theorem start_then_seek_back_clamps (env1 env2 : SpawnEnv) (s : EngineState)
    (elapsedWall : ℚ) (he0 : 0 ≤ elapsedWall) (he5 : elapsedWall ≤ 5)
    (hd : 0 ≤ s.duration) :
    (seek (-5) 80 24 elapsedWall env2 (start 80 24 0 env1 s).1).1.seekTime
      = 0 ∧
    (seek (-5) 80 24 elapsedWall env2 (start 80 24 0 env1 s).1).1.sessionId
      = (start 80 24 0 env1 s).1.sessionId + 1 := by
  constructor
  · rw [seek_fst_seekTime]
    rw [start_fst]
    simp only [seek_target]
    simp only [Bool.false_eq_true, if_false]
    rcases lt_or_le ((0 : ℚ) + elapsedWall + (-5)) 0 with h | h
    · rw [if_pos h, if_neg]
      rintro ⟨h2, h3⟩; linarith
    · have he : (0 : ℚ) + elapsedWall + (-5) = 0 := by linarith
      rw [if_neg (not_lt.mpr h), he, if_neg]
      rintro ⟨h2, h3⟩; linarith
  · rw [seek, start_fst]

/-- Instantiation of `start_then_seek_back_clamps` with zero wall-clock
elapsed on a fresh engine with duration 120. -/
theorem start_then_seek_back_clamps_witness :
    0 ≤ (0 : ℚ) ∧ (0 : ℚ) ≤ 5 ∧ 0 ≤ sampleEngine.duration ∧
    ((seek (-5) 80 24 0 sampleEnv
        (start 80 24 0 sampleEnv sampleEngine).1).1.seekTime = 0 ∧
     (seek (-5) 80 24 0 sampleEnv
        (start 80 24 0 sampleEnv sampleEngine).1).1.sessionId
      = (start 80 24 0 sampleEnv sampleEngine).1.sessionId + 1) :=
  ⟨le_refl 0, by norm_num, by norm_num [sampleEngine, VideoEngine.new],
   start_then_seek_back_clamps sampleEnv sampleEnv sampleEngine 0 (le_refl 0)
     (by norm_num) (by norm_num [sampleEngine, VideoEngine.new])⟩

/-- C2: a `VideoEnded(id)` event whose `id` differs from the currently
active session id leaves the application state unchanged and performs no
action (it is silently discarded); conversely, any change of mode from
handling the event implies the id matched the active session exactly (and
the app was in video mode). -/
theorem video_ended_fencing (id : Nat) (a : AppState) :
    (id ≠ a.engine.sessionId → handle_video_ended id a = (a, [])) ∧
    ((handle_video_ended id a).1.mode ≠ a.mode →
      id = a.engine.sessionId ∧ a.mode = AppMode.video) := by
  constructor
  · intro h
    rw [handle_video_ended, if_neg]
    rintro ⟨h1, h2⟩
    exact h h2
  · intro h
    by_cases hc : a.mode = AppMode.video ∧ id = a.engine.sessionId
    · exact ⟨hc.2, hc.1⟩
    · rw [handle_video_ended, if_neg hc] at h
      exact absurd rfl h

/-- Instantiation of `video_ended_fencing`: a stale `VideoEnded(1)` against
active session 2 is discarded. -/
theorem video_ended_fencing_witness :
    handle_video_ended 1 sampleApp = (sampleApp, []) :=
  (video_ended_fencing 1 sampleApp).1 (by decide)

/-- C3: after `start(w, h, t)` the frame buffer is exactly `w*h` zeroed
bytes, and the action trace of `start` contains exactly one buffer resize
(to `w*h`), which happens before any decode-thread spawn. -/
theorem start_buffer_resize (termW termH : Nat) (t : ℚ) (env : SpawnEnv)
    (s : EngineState) :
    (start termW termH t env s).1.buffer
      = List.replicate (termW * termH) 0 ∧
    (start termW termH t env s).1.buffer.length = termW * termH ∧
    ∃ l1 l2, (start termW termH t env s).2
        = l1 ++ Action.resizeBuffer (termW * termH) :: l2 ∧
      (∀ a ∈ l1, (∀ n, a ≠ Action.resizeBuffer n) ∧
        ∀ i, a ≠ Action.spawnDecodeThread i) ∧
      (∀ a ∈ l2, ∀ n, a ≠ Action.resizeBuffer n) := by
  refine ⟨by rw [start_fst],
    by rw [start_fst]; exact List.length_replicate _ _, ?_⟩
  refine ⟨(stop_processes s).2 ++ [Action.spawnAudioProc t],
    Action.spawnFfmpegProc t ::
      (match env.ffmpegChild with
       | some _ => [Action.spawnDecodeThread (s.sessionId + 1)]
       | none => []), ?_, ?_, ?_⟩
  · rw [start_acts]
    simp
  · intro a ha
    rcases List.mem_append.mp ha with h | h
    · rcases stop_processes_acts_shape s a h with h1 | ⟨p, h1⟩ | ⟨p, h1⟩ <;>
        subst h1 <;>
        exact ⟨fun n hn => Action.noConfusion hn,
          fun i hi => Action.noConfusion hi⟩
    · simp only [List.mem_singleton] at h
      subst h
      exact ⟨fun n hn => Action.noConfusion hn,
        fun i hi => Action.noConfusion hi⟩
  · intro a ha
    rcases List.mem_cons.mp ha with h | h
    · subst h
      intro n hn
      cases hn
    · cases hfc : env.ffmpegChild with
      | some pid =>
          rw [hfc] at h
          simp only [List.mem_singleton] at h
          subst h
          intro n hn
          cases hn
      | none =>
          rw [hfc] at h
          simp at h

/-- The decode-thread spawn action occurs in `start`'s trace exactly when
the decoder spawn succeeded. -/
theorem start_thread_act (termW termH : Nat) (t : ℚ) (env : SpawnEnv)
    (s : EngineState) :
    (Action.spawnDecodeThread (s.sessionId + 1) ∈ (start termW termH t env s).2)
      ↔ env.ffmpegChild.isSome = true := by
  rw [start_acts]
  cases hfc : env.ffmpegChild with
  | some pid => simp
  | none =>
      simp only [Option.isSome_none, Bool.false_eq_true, iff_false,
        List.append_nil]
      intro h
      rcases List.mem_append.mp h with h | h
      · rcases stop_processes_acts_shape s _ h with h1 | ⟨p, h1⟩ | ⟨p, h1⟩ <;>
          cases h1
      · simp at h

/-- C10: `start` mutates the engine unconditionally, before any spawn
outcome is known: for every spawn environment (including failed decoder
or audio spawns) the session id increments by exactly 1, a fresh un-set
stopper is installed, pause state is cleared, `seek_time` becomes `t`,
the wall-clock anchor is reset to now, and the buffer becomes `w*h`
zeroed bytes; only the decode-thread spawn is conditional, occurring
exactly when the decoder spawn succeeded. -/
theorem start_unconditional_mutation (termW termH : Nat) (t : ℚ)
    (env : SpawnEnv) (s : EngineState) :
    (start termW termH t env s).1.sessionId = s.sessionId + 1 ∧
    (start termW termH t env s).1.currentStopper = some false ∧
    (start termW termH t env s).1.isPaused = false ∧
    (start termW termH t env s).1.pauseSignal = false ∧
    (start termW termH t env s).1.seekTime = t ∧
    (start termW termH t env s).1.startInstant = env.now ∧
    (start termW termH t env s).1.buffer
      = List.replicate (termW * termH) 0 ∧
    ((Action.spawnDecodeThread (s.sessionId + 1)
        ∈ (start termW termH t env s).2)
      ↔ env.ffmpegChild.isSome = true) :=
  ⟨by rw [start_fst], by rw [start_fst], by rw [start_fst],
   by rw [start_fst], by rw [start_fst], by rw [start_fst],
   by rw [start_fst], start_thread_act termW termH t env s⟩

/-- C6: `stop` is idempotent: a second `stop` returns exactly the state the
first one produced and performs no action at all (no cancellation, no
process kill). -/
theorem stop_idempotent (s : EngineState) :
    stop (stop s).1 = ((stop s).1, []) := by
  obtain ⟨b, w, h, cs, ps, ap, fp, st, du, si, sid, ip⟩ := s
  cases cs <;> cases ap <;> cases fp <;> rfl

/-- C7: from an unpaused state with a live audio process, toggling pause
twice (pause, then resume) with both signal commands succeeding leaves the
session id unchanged and spawns no audio process in either call. -/
theorem toggle_pause_pair (e1 e2 : ℚ) (env1 env2 : SpawnEnv)
    (s : EngineState) (pid : Nat) (hp : s.isPaused = false)
    (ha : s.audioProcess = some pid) :
    (toggle_pause e2 env2 true (toggle_pause e1 env1 true s).1).1.sessionId
      = s.sessionId ∧
    (∀ t, Action.spawnAudioProc t ∉ (toggle_pause e1 env1 true s).2) ∧
    (∀ t, Action.spawnAudioProc t ∉
      (toggle_pause e2 env2 true (toggle_pause e1 env1 true s).1).2) := by
  obtain ⟨b, w, h, cs, ps, ap, fp, st, du, si, sid, ip⟩ := s
  dsimp only at hp ha
  subst hp
  subst ha
  refine ⟨rfl, ?_, ?_⟩ <;> intro t <;> simp [toggle_pause]

/-- Instantiation of `toggle_pause_pair` on a fresh engine carrying audio
pid 2. -/
theorem toggle_pause_pair_witness :
    ({ sampleEngine with audioProcess := some 2 } : EngineState).isPaused
      = false ∧
    ({ sampleEngine with audioProcess := some 2 } : EngineState).audioProcess
      = some 2 ∧
    (toggle_pause 2 sampleEnv true
      (toggle_pause 1 sampleEnv true
        { sampleEngine with audioProcess := some 2 }).1).1.sessionId
      = ({ sampleEngine with audioProcess := some 2 } : EngineState).sessionId :=
  ⟨rfl, rfl,
   (toggle_pause_pair 1 2 sampleEnv sampleEnv
      { sampleEngine with audioProcess := some 2 } 2 rfl rfl).1⟩

/-- C4: the decode loop never writes into a buffer whose length differs
from the frame size it was spawned with: any change to the buffer implies
the pre-write length equalled `size`, and when a frame was read but the
length check fails, the iteration exits immediately, buffer untouched,
with no event posted. -/
theorem decode_iter_size_guard (size sid : Nat) (inp : IterInput)
    (buffer : List Nat) :
    ((decode_iter size sid inp buffer).1 ≠ buffer → buffer.length = size) ∧
    (inp.stopAtTop = false → inp.pauseAtTop = false →
      inp.read = ReadResult.ok → inp.stopAfterRead = false →
      inp.pauseAfterRead = false → buffer.length ≠ size →
      decode_iter size sid inp buffer
        = (buffer, [], IterOutcome.ended)) := by
  obtain ⟨st, pt, rd, fr, sa, pa⟩ := inp
  constructor
  · intro hne
    by_contra hlen
    apply hne
    cases st <;> cases pt <;> cases rd <;> cases sa <;> cases pa <;>
      simp [decode_iter, hlen]
  · intro h1 h2 h3 h4 h5 hlen
    dsimp only at h1 h2 h3 h4 h5
    subst h1; subst h2; subst h3; subst h4; subst h5
    simp [decode_iter, hlen]

/-- Instantiation of `decode_iter_size_guard`: a 4-byte frame arriving
while the buffer holds 3 bytes is dropped and the loop exits silently. -/
theorem decode_iter_size_guard_witness :
    decode_iter 4 7
      ⟨false, false, ReadResult.ok, [1, 2, 3, 4], false, false⟩ [0, 0, 0]
      = ([0, 0, 0], [], IterOutcome.ended) :=
  (decode_iter_size_guard 4 7
      ⟨false, false, ReadResult.ok, [1, 2, 3, 4], false, false⟩ [0, 0, 0]).2
    rfl rfl rfl rfl rfl (by decide)

/-- C5: when the pipe read fails in an iteration that reached the read
(not cancelled and not paused at the loop top), the loop posts
`VideoEnded(sessionId)` if and only if the cancel flag observed after the
failed read is not set; either way the buffer is untouched and the loop
terminates. -/
theorem decode_iter_err_event (size sid : Nat) (inp : IterInput)
    (buffer : List Nat) (hTop : inp.stopAtTop = false)
    (hPause : inp.pauseAtTop = false)
    (hRead : inp.read = ReadResult.err) :
    ((decode_iter size sid inp buffer).2.1 = [BgEvent.videoEnded sid]
      ↔ inp.stopAfterRead = false) ∧
    (inp.stopAfterRead = true →
      (decode_iter size sid inp buffer).2.1 = []) ∧
    (decode_iter size sid inp buffer).1 = buffer ∧
    (decode_iter size sid inp buffer).2.2 = IterOutcome.ended := by
  obtain ⟨st, pt, rd, fr, sa, pa⟩ := inp
  dsimp only at hTop hPause hRead
  subst hTop; subst hPause; subst hRead
  cases sa <;> simp [decode_iter]

/-- Instantiation of `decode_iter_err_event`: a read failure with the
cancel flag unset posts the session's end event. -/
theorem decode_iter_err_event_witness :
    (decode_iter 4 7
      ⟨false, false, ReadResult.err, [], false, false⟩ [0, 0, 0]).2.1
      = [BgEvent.videoEnded 7] :=
  ((decode_iter_err_event 4 7
      ⟨false, false, ReadResult.err, [], false, false⟩ [0, 0, 0]
      rfl rfl rfl).1).mpr rfl

/-- Instantiation of `start_buffer_resize`: a 2 x 3 start leaves a 6-byte
zeroed buffer. -/
theorem start_buffer_resize_witness :
    (start 2 3 0 sampleEnv sampleEngine).1.buffer = List.replicate 6 0 ∧
    (start 2 3 0 sampleEnv sampleEngine).1.buffer.length = 6 :=
  ⟨(start_buffer_resize 2 3 0 sampleEnv sampleEngine).1,
   (start_buffer_resize 2 3 0 sampleEnv sampleEngine).2.1⟩

/-- Instantiation of `stop_idempotent` on a fresh engine. -/
theorem stop_idempotent_witness :
    stop (stop sampleEngine).1 = ((stop sampleEngine).1, []) :=
  stop_idempotent sampleEngine

/-- Instantiation of `start_unconditional_mutation` on a fresh engine. -/
theorem start_unconditional_mutation_witness :
    (start 2 3 (7/2) sampleEnv sampleEngine).1.sessionId
      = sampleEngine.sessionId + 1 ∧
    (start 2 3 (7/2) sampleEnv sampleEngine).1.seekTime = 7/2 :=
  ⟨(start_unconditional_mutation 2 3 (7/2) sampleEnv sampleEngine).1,
   (start_unconditional_mutation 2 3 (7/2) sampleEnv sampleEngine).2.2.2.2.1⟩

end BadBrowser
